import Mathlib

/-!
Shallow embedding of the ProjectQ OpenQML plugin
(`openqml/plugins/projectq.py`): gate and observable descriptors, the
backend capability negotiation performed in `PluginAPI.__init__`, the
engine/register lifecycle (`reset`, `execute_circuit`), and the
per-backend expectation estimator (`Observable.execute`).

The opaque ProjectQ library (engines, qubits, the numerical simulator)
is modelled as follows: an engine is a record carrying the backend's
type name, a trace of operations sent to it, and the dynamically added
`already_a_measurement_performed` attribute (`none` when the attribute
is absent); the backend's analytic expectation-value functional and the
classical bit read are an opaque `Oracle` supplied as a parameter.
Python exceptions are modelled with `Except`; machine floats are
modelled as exact rationals.
-/

deriving instance DecidableEq for Except

namespace ProjectQ

/-- Errors raised by the plugin.  Each constructor corresponds to one
raise site of the source (the specification's error taxonomy names
them): `multipleMeasurement` is the `NotImplementedError` raised when a
second measurement is attempted on the IBM backend
(`MultipleMeasurementError` in the spec), `unknownBackend` is the
`ValueError` for an unrecognized backend kind, `unsupportedGate` the
`ValueError` for a gate missing from the effective catalog,
`estimationNotImplemented` the `NotImplementedError` for an
observable/backend pair without an estimation rule, and the remaining
constructors model Python `TypeError`/`IndexError`/`KeyError`/
`NameError` conditions on malformed state or inputs. -/
inductive Err where
  | multipleMeasurement
  | multiQubitObservable (backend : String)
  | estimationNotImplemented (obs : String) (backend : String)
  | estimationBackendNotImplemented (backend : String)
  | unknownBackend (backend : String)
  | unsupportedGate (gate : String) (backend : String)
  | keyError (key : List Nat)
  | indexError
  | noEngine
  | noRegister
  | nameError
deriving DecidableEq, Repr

/-- The ProjectQ gate classes referenced by the plugin's gate table:
the `pq.ops` classes used for state-changing gates, the meta-gate
classes `CNOTClass`, `CZClass`, `AllZClass` defined by the plugin, and
the `pq.ops.X`/`Y`/`Z` instances used as observable constructors. -/
inductive GateClass where
  | HGate | XGate | YGate | ZGate | SGate | TGate | SqrtXGate
  | SwapGate | SqrtSwapGate
  | Rx | Ry | Rz | R | CRz
  | CNOTClass | CZClass | AllZClass
  | opX | opY | opZ
deriving DecidableEq, Repr

/-- Result of `str(self.cls)` for the observable instances; only the
`pq.ops.X`/`Y`/`Z` instances are ever converted to a string by the
plugin (in the Simulator branch of `Observable.execute`). -/
def clsStr : GateClass → String
  | GateClass.opX => "X"
  | GateClass.opY => "Y"
  | GateClass.opZ => "Z"
  | _ => ""

/-- `Gate` descriptor (class `Gate` of the source): name, number of
subsystems, number of parameters, and the ProjectQ class used to build
the operation.  `observable` records whether the descriptor is an
instance of the `Observable` subclass, which overrides `execute`;
`par_domain` and `grad_method` are fixed in the source and omitted. -/
structure Gate where
  name : String
  n_sys : Nat
  n_par : Nat
  cls : GateClass
  observable : Bool
deriving DecidableEq, Repr

/-- One operation sent to a ProjectQ engine: a gate application
`G | reg` (recording the gate class, the constructor arguments and
the target qubits), a `flush(deallocate_qubits=b)` barrier, or the
`All(Measure) | self.reg` issued by `_deallocate`. -/
inductive EngOp where
  | gate (cls : GateClass) (par : List ℚ) (qubits : List Nat)
  | flush (deallocate : Bool)
  | measureAll (reg : Option (List Nat))
deriving DecidableEq, Repr

/-- A ProjectQ `MainEngine` as seen by the plugin: the name of its
backend's type, the trace of operations sent to it, and the dynamic
attribute `already_a_measurement_performed` (`none` models the
attribute being absent, as on a freshly built engine). -/
structure Engine where
  backendName : String
  trace : List EngOp
  flag : Option Bool
deriving DecidableEq, Repr

/-- The plugin session (class `PluginAPI` of the source): the backend
kind string, the effective gate and observable catalogs `_gates` and
`_observables` (insertion-ordered dictionaries keyed by descriptor
name, modelled as association lists), the engine and register handles
(`self.eng`, `self.reg`), and the base class's `n_eval` attribute. -/
structure Session where
  backend : String
  gates : List (String × Gate)
  observables : List (String × Gate)
  eng : Option Engine
  reg : Option (List Nat)
  n_eval : Int
deriving DecidableEq, Repr

/-- Gate parameters of a command: a literal value or a `ParRef`
(symbolic reference to a positional circuit parameter).
Modelled from the spec: `ParRef` belongs to the host framework's
`openqml.circuit` module, which is not part of this file's source;
the spec describes parameters as literal values or symbolic
positional references. -/
inductive Par where
  | val (x : ℚ)
  | ref (idx : Nat)
deriving DecidableEq, Repr

/-- A `Command` of the host framework: a gate descriptor, the target
subsystem indices, and the parameter list.
Modelled from the spec: `Command` belongs to `openqml.circuit`; the
spec gives it a descriptor, an ordered sequence of target-qubit
indices and a parameter sequence. -/
structure Command where
  gate : Gate
  reg : List Nat
  par : List Par
deriving DecidableEq, Repr

/-- A `Circuit` of the host framework: named ordered command sequence
and the declared output qubits (`None` when the circuit declares no
outputs, as in the source's `demo` template).
Modelled from the spec: `Circuit` belongs to `openqml.circuit`. -/
structure Circuit where
  seq : List Command
  name : String
  out : Option (List Nat)
deriving DecidableEq, Repr

/-- Qubit count of a circuit.  Modelled from the spec: "qubit count =
max qubit index referenced + 1". -/
def Circuit.n_sys (c : Circuit) : Nat :=
  (c.seq.foldr (fun cmd m => cmd.reg.foldr max m) 0) + 1

/-- The opaque numerical backend (spec section 6): the analytic
expectation-value functional `get_expectation_value` (given the
`QubitOperator` term string and the target qubits) and the
`ClassicalSimulator.read_bit` query. -/
structure Oracle where
  expVal : String → List Nat → ℚ
  readBit : Nat → ℚ

/-- Value returned by executing one command: Python `None` for a
state-changing gate (whose `execute` has no return statement), a
scalar (value, variance) pair for a single-qubit observable, or the
parallel value/variance lists returned for the `AllZ` observable. -/
inductive EVResult where
  | noneRes
  | pair (ev : ℚ) (var : ℚ)
  | pairList (evs : List ℚ) (vars : List ℚ)
deriving DecidableEq, Repr

/-- The gate table of the source (lines 184 to 213). -/
def H : Gate := ⟨"H", 1, 0, GateClass.HGate, false⟩

def X : Gate := ⟨"X", 1, 0, GateClass.XGate, false⟩

def Y : Gate := ⟨"Y", 1, 0, GateClass.YGate, false⟩

def Z : Gate := ⟨"Z", 1, 0, GateClass.ZGate, false⟩

def S : Gate := ⟨"S", 1, 0, GateClass.SGate, false⟩

def T : Gate := ⟨"T", 1, 0, GateClass.TGate, false⟩

def SqrtX : Gate := ⟨"SqrtX", 1, 0, GateClass.SqrtXGate, false⟩

def Swap : Gate := ⟨"Swap", 2, 0, GateClass.SwapGate, false⟩

def SqrtSwap : Gate := ⟨"SqrtSwap", 2, 0, GateClass.SqrtSwapGate, false⟩

def Rx : Gate := ⟨"Rx", 1, 1, GateClass.Rx, false⟩

def Ry : Gate := ⟨"Ry", 1, 1, GateClass.Ry, false⟩

def Rz : Gate := ⟨"Rz", 1, 1, GateClass.Rz, false⟩

def R : Gate := ⟨"R", 1, 1, GateClass.R, false⟩

def CRz : Gate := ⟨"CRz", 2, 1, GateClass.CRz, false⟩

def CNOT : Gate := ⟨"CNOT", 2, 0, GateClass.CNOTClass, false⟩

def CZ : Gate := ⟨"CZ", 2, 0, GateClass.CZClass, false⟩

def AllZ : Gate := ⟨"AllZ", 1, 0, GateClass.AllZClass, false⟩

def MeasureX : Gate := ⟨"X", 1, 0, GateClass.opX, true⟩

def MeasureY : Gate := ⟨"Y", 1, 0, GateClass.opY, true⟩

def MeasureZ : Gate := ⟨"Z", 1, 0, GateClass.opZ, true⟩

def MeasureAllZ : Gate := ⟨"AllZ", 1, 0, GateClass.AllZClass, true⟩

/-- The full declared gate catalog, the local `gates` list of
`PluginAPI.__init__` (line 271). -/
def gatesList : List Gate :=
  [H, X, Y, Z, S, T, SqrtX, Swap, SqrtSwap, Rx, Ry, Rz, R, CRz, CNOT, CZ]

/-- The full declared observable catalog, the local `observables` list
of `PluginAPI.__init__` (line 272). -/
def observablesList : List Gate := [MeasureX, MeasureY, MeasureZ, MeasureAllZ]

/-- The dictionary comprehension `{g.name: g for g in l}`: an
association list keyed by descriptor name (all names occurring in the
source's uses are pairwise distinct, so first-match lookup agrees with
Python dictionary semantics). -/
def mkDict (l : List Gate) : List (String × Gate) :=
  l.map (fun g => (g.name, g))

/-- `PluginAPI.__init__`: record the backend kind, negotiate the
effective gate/observable catalogs, and initialize `eng`/`reg` to
`None`.  `probe g` abstracts the opaque answer of
`backend.is_available(...)` on the representative command built for
`g` during capability probing; the Simulator branch performs no
probing at all.  The IBM branch keeps the source's split between
parametrized and parameterless probes and unconditionally appends
`CNOT` after filtering.  An unrecognized kind raises `ValueError`
before `_gates`, `_observables`, `eng` or `reg` are assigned. -/
def mkSession (backend : String) (probe : Gate → Bool) : Except Err Session :=
  if backend = "Simulator" then
    Except.ok
      { backend := backend, gates := mkDict gatesList,
        observables := mkDict observablesList,
        eng := none, reg := none, n_eval := 0 }
  else if backend = "ClassicalSimulator" then
    Except.ok
      { backend := backend, gates := mkDict (gatesList.filter probe),
        observables := mkDict [MeasureZ],
        eng := none, reg := none, n_eval := 0 }
  else if backend = "IBMBackend" then
    Except.ok
      { backend := backend,
        gates := mkDict
          ((gatesList.filter
            (fun g => (decide (0 < g.n_par) && probe g)
                   || (g.n_par == 0 && probe g))) ++ [CNOT]),
        observables := mkDict [MeasureZ],
        eng := none, reg := none, n_eval := 0 }
  else
    Except.error (Err.unknownBackend backend)

/-- `PluginAPI._deallocate`: on the Simulator backend, send
`All(Measure) | self.reg` to the engine before releasing it. -/
def Session.deallocate (s : Session) : Session :=
  match s.eng with
  | some e =>
      if s.backend = "Simulator" then
        { s with eng := some { e with trace := e.trace ++ [EngOp.measureAll s.reg] } }
      else s
  | none => s

/-- `PluginAPI.reset`: if an engine is live, deallocate the qubits on
the Simulator backend and drop the engine handle.  The register handle
`self.reg` is not touched by the source. -/
def Session.reset (s : Session) : Session :=
  match s.eng with
  | some _ =>
      if s.backend = "Simulator" then { s.deallocate with eng := none }
      else { s with eng := none }
  | none => s

/-- `parmap` of `execute_circuit`: replace a `ParRef` with the
corresponding positional parameter value (`IndexError` when the
reference index is out of range), leave literal values unchanged. -/
def parmap (params : List ℚ) : Par → Except Err ℚ
  | Par.val x => Except.ok x
  | Par.ref i =>
      match params[i]? with
      | some v => Except.ok v
      | none => Except.error Err.indexError

/-- Resolve every parameter of a command, left to right. -/
def parmapAll (params : List ℚ) : List Par → Except Err (List ℚ)
  | [] => Except.ok []
  | p :: rest =>
      match parmap params p with
      | Except.ok v => (parmapAll params rest).map (fun vs => v :: vs)
      | Except.error e => Except.error e

/-- The list comprehension `[self.reg[i] for i in idxs]` over a
register `r`, failing with `IndexError` at the first out-of-range
index. -/
def resolveIdx (r : List Nat) : List Nat → Except Err (List Nat)
  | [] => Except.ok []
  | i :: rest =>
      match r[i]? with
      | some q => (resolveIdx r rest).map (fun qs => q :: qs)
      | none => Except.error Err.indexError

/-- `[self.reg[i] for i in idxs]` where `self.reg` may be `None`
(subscripting `None` raises `TypeError`). -/
def resolveQubits (reg : Option (List Nat)) (idxs : List Nat) : Except Err (List Nat) :=
  match reg with
  | none => Except.error Err.noRegister
  | some r => resolveIdx r idxs

/-- `Gate.execute` of the source: build `G = self.cls(*par)` and send
`G | reg` to the engine (modelled by appending the operation to the
live engine's trace); there is no return value. -/
def Gate.execute (g : Gate) (par : List ℚ) (qubits : List Nat) (s : Session) :
    Except Err Session :=
  match s.eng with
  | some e =>
      Except.ok
        { s with eng := some { e with trace := e.trace ++ [EngOp.gate g.cls par qubits] } }
  | none => Except.error Err.noEngine

/-- `sim.eng.flush(deallocate_qubits=b)`: append a flush barrier to
the live engine's trace. -/
def flushEng (s : Session) (deallocate : Bool) : Except Err Session :=
  match s.eng with
  | some e =>
      Except.ok { s with eng := some { e with trace := e.trace ++ [EngOp.flush deallocate] } }
  | none => Except.error Err.noEngine

/-- The dictionary `expectation_values` built during a circuit
execution pass, keyed by `tuple(cmd.reg)`. -/
abbrev Dict := List (List Nat × EVResult)

/-- Python dictionary assignment `d[k] = v`: a later entry with the
same key shadows the earlier one under `dictLookup`. -/
def dictInsert (d : Dict) (k : List Nat) (v : EVResult) : Dict := (k, v) :: d

/-- Python dictionary lookup `d[k]` (most recent entry wins). -/
def dictLookup : Dict → List Nat → Option EVResult
  | [], _ => none
  | (k', v) :: rest, k => if k' = k then some v else dictLookup rest k

/-- How an observable command is executed; `execute_circuit` and the
body of the estimator's IBM branch are parametrized by this handler so
that the source's mutual recursion (the IBM branch re-enters
`execute_circuit` on a gates-only throwaway circuit) unfolds into
non-recursive definitions. -/
abbrev ObsHandler := Gate → List ℚ → List Nat → Session → Except Err (Session × EVResult)

/-- Execution of one command of the pass (the body of the `for cmd in
circuit.seq` loop, without the dictionary assignment): check that the
gate is in the effective catalogs, resolve the target qubits and the
parameters, then dispatch on the descriptor's class: a state-changing
gate is applied (returning Python `None`), an observable is handed to
the estimator. -/
def runCmd (h : ObsHandler) (params : List ℚ) (s : Session) (cmd : Command) :
    Except Err (Session × EVResult) :=
  if (s.gates.any (fun p => p.1 == cmd.gate.name)
      || s.observables.any (fun p => p.1 == cmd.gate.name)) = false then
    Except.error (Err.unsupportedGate cmd.gate.name s.backend)
  else
    match resolveQubits s.reg cmd.reg with
    | Except.error e => Except.error e
    | Except.ok qubits =>
        match parmapAll params cmd.par with
        | Except.error e => Except.error e
        | Except.ok par =>
            if cmd.gate.observable then h cmd.gate par qubits s
            else
              match cmd.gate.execute par qubits s with
              | Except.ok s' => Except.ok (s', EVResult.noneRes)
              | Except.error e => Except.error e

/-- The `for cmd in circuit.seq` loop: execute each command in
declared order and record its result in `expectation_values` under
`tuple(cmd.reg)` — for every command, state-changing gates included
(whose recorded result is Python `None`). -/
def runPass (h : ObsHandler) (params : List ℚ) :
    Session → Dict → List Command → Except Err (Session × Dict)
  | s, d, [] => Except.ok (s, d)
  | s, d, cmd :: rest =>
      match runCmd h params s cmd with
      | Except.ok (s', v) => runPass h params s' (dictInsert d cmd.reg v) rest
      | Except.error e => Except.error e

/-- `pq.MainEngine(backend)` for the session's backend kind: a fresh
engine with an empty trace and without the
`already_a_measurement_performed` attribute.  For a kind outside the
three handled ones the source's local variable `backend` is unbound
(`NameError`). -/
def mkEngineFor (backend : String) : Except Err Engine :=
  if backend = "Simulator" ∨ backend = "ClassicalSimulator" ∨ backend = "IBMBackend" then
    Except.ok { backendName := backend, trace := [], flag := none }
  else Except.error Err.nameError

/-- The reallocation arm of `execute_circuit` (lines 359 to 367):
reset, build a fresh engine, and clear the register handle. -/
def reallocate (s : Session) : Except Err Session :=
  match mkEngineFor s.backend with
  | Except.ok e => Except.ok { s.reset with eng := some e, reg := none }
  | Except.error err => Except.error err

/-- The "set the required number of subsystems" phase of
`execute_circuit` (line 358): keep the live engine/register pair only
when both exist and the register size matches the circuit. -/
def allocPhase (s : Session) (c : Circuit) : Except Err Session :=
  match s.eng, s.reg with
  | some _, some r => if c.n_sys = r.length then Except.ok s else reallocate s
  | _, _ => reallocate s

/-- `self.reg = self.eng.allocate_qureg(circuit.n_sys)` inside the
compute scope, performed only when no register is held. -/
def allocRegister (s : Session) (n : Nat) : Session :=
  match s.reg with
  | none => { s with reg := some (List.range n) }
  | some _ => s

/-- Allocation phase followed by the full command pass starting from
an empty `expectation_values` dictionary. -/
def execPass (h : ObsHandler) (s : Session) (c : Circuit) (params : List ℚ) :
    Except Err (Session × Dict) :=
  match allocPhase s c with
  | Except.ok s₁ => runPass h params (allocRegister s₁ c.n_sys) [] c.seq
  | Except.error e => Except.error e

/-- The output comprehension
`[expectation_values[tuple([idx])] for idx in circuit.out]`
(`KeyError` when an output qubit has no recorded entry). -/
def collectRes (d : Dict) : List Nat → Except Err (List EVResult)
  | [] => Except.ok []
  | idx :: rest =>
      match dictLookup d [idx] with
      | some v => (collectRes d rest).map (fun vs => v :: vs)
      | none => Except.error (Err.keyError [idx])

/-- The return statement of `execute_circuit`: when the circuit
declares outputs, look each one up in the recorded dictionary; when
`circuit.out` is `None`, return no value. -/
def collectOut (out : Option (List Nat)) (s : Session) (d : Dict) :
    Except Err (Session × Option (List EVResult)) :=
  match out with
  | none => Except.ok (s, none)
  | some outs => (collectRes d outs).map (fun res => (s, some res))

/-- `execute_circuit` with an explicit observable handler: allocation,
command pass, output collection.  The base class's
`super().execute_circuit` only records the circuit on the session and
is modelled as the identity (Modelled from the spec: the host base
class resolves and stores the circuit and performs no backend
operation). -/
def execCore (h : ObsHandler) (s : Session) (c : Circuit) (params : List ℚ) :
    Except Err (Session × Option (List EVResult)) :=
  match execPass h s c params with
  | Except.ok (s', d) => collectOut c.out s' d
  | Except.error e => Except.error e

/-- The throwaway `'fake identity'` circuit built by the estimator's
IBM branch: `[Command(Rx, [0], [i]) for i in range(len(reg))]`, no
declared outputs. -/
def fakeCircuit (n : Nat) : Circuit :=
  { seq := (List.range n).map (fun i => { gate := Rx, reg := [0], par := [Par.val (i : ℚ)] }),
    name := "fake identity", out := none }

/-- Handler used when executing the fake circuit, which contains only
state-changing `Rx` commands; it is therefore never invoked (see
`execCore_handler_independent` below for the proof that the choice of
handler is irrelevant on observable-free circuits). -/
def fakeHandler : ObsHandler :=
  fun g _ _ _ => Except.error (Err.estimationNotImplemented g.name "fake")

/-- `Observable.execute` of the source, the per-backend Expectation
Estimator.  Reads the engine's backend type name, enforces the
single-measurement guard for the IBM backend, marks the engine as
measured, rejects multi-qubit observables outside the IBM backend,
then dispatches: the Simulator branch flushes and queries the analytic
expectation functional (variance `1 - e ^ 2` for the Pauli
observables, one pair per register qubit for `AllZ`); the
ClassicalSimulator branch reads the collapsed bit with variance `0`;
the IBM branch resets the session, executes the throwaway identity
circuit on a fresh engine, flushes, and returns the placeholder
`(0, 0)` for the `Z` observable. -/
def Observable.execute (oracle : Oracle) (obs : Gate) (par : List ℚ) (qubits : List Nat)
    (sim : Session) : Except Err (Session × EVResult) :=
  match sim.eng with
  | none => Except.error Err.noEngine
  | some e =>
      let backend := e.backendName
      if backend = "IBMBackend" ∧ e.flag = some true then
        Except.error Err.multipleMeasurement
      else
        let sim := { sim with eng := some { e with flag := some true } }
        if obs.n_sys ≠ 1 ∧ backend ≠ "IBMBackend" then
          Except.error (Err.multiQubitObservable backend)
        else if backend = "Simulator" then
          match flushEng sim false with
          | Except.error err => Except.error err
          | Except.ok sim =>
              if obs.cls = GateClass.opX ∨ obs.cls = GateClass.opY
                  ∨ obs.cls = GateClass.opZ then
                let ev := oracle.expVal (clsStr obs.cls ++ "0") qubits
                Except.ok (sim, EVResult.pair ev (1 - ev ^ 2))
              else if obs.cls = GateClass.AllZClass then
                match sim.reg with
                | some r =>
                    let evs := r.map (fun q => oracle.expVal ("Z" ++ "0") [q])
                    Except.ok (sim, EVResult.pairList evs (evs.map (fun x => 1 - x ^ 2)))
                | none => Except.error Err.noRegister
              else Except.error (Err.estimationNotImplemented obs.name backend)
        else if backend = "ClassicalSimulator" then
          match flushEng sim false with
          | Except.error err => Except.error err
          | Except.ok sim =>
              if obs.cls = GateClass.opZ then
                match qubits with
                | q :: _ => Except.ok (sim, EVResult.pair (oracle.readBit q) 0)
                | [] => Except.error Err.indexError
              else Except.error (Err.estimationNotImplemented obs.name backend)
        else if backend = "IBMBackend" then
          match execCore fakeHandler sim.reset (fakeCircuit qubits.length) [] with
          | Except.error err => Except.error err
          | Except.ok (sim, _) =>
              match flushEng sim false with
              | Except.error err => Except.error err
              | Except.ok sim =>
                  if obs.cls = GateClass.opZ then
                    Except.ok (sim, EVResult.pair 0 0)
                  else Except.error (Err.estimationNotImplemented obs.name backend)
        else Except.error (Err.estimationBackendNotImplemented backend)

/-- `PluginAPI.execute_circuit`: the full pass with the real
estimator as observable handler. -/
def execute_circuit (oracle : Oracle) (s : Session) (c : Circuit) (params : List ℚ) :
    Except Err (Session × Option (List EVResult)) :=
  execCore (Observable.execute oracle) s c params

/-- `PluginAPI.expection_value` (the source's spelling): store the
caller's `n_eval` on the session for the duration of the observable's
execution and restore the original value before returning. -/
def Session.expection_value (oracle : Oracle) (s : Session) (observable : Gate)
    (reg : List Nat) (par : List ℚ) (n_eval : Int) :
    Except Err (Session × EVResult) :=
  let temp := s.n_eval
  let s := { s with n_eval := n_eval }
  match resolveQubits s.reg reg with
  | Except.error e => Except.error e
  | Except.ok qubits =>
      match Observable.execute oracle observable par qubits s with
      | Except.ok (s', ev) => Except.ok ({ s' with n_eval := temp }, ev)
      | Except.error e => Except.error e

/-- `PluginAPI.measure` delegates to `expection_value`. -/
def Session.measure (oracle : Oracle) (s : Session) (observable : Gate)
    (reg : List Nat) (par : List ℚ) (n_eval : Int) :
    Except Err (Session × EVResult) :=
  s.expection_value oracle observable reg par n_eval

/-! Concrete fixtures used by witnesses and counterexamples. -/

/-- The session built by `PluginAPI.__init__` for the Simulator
backend (no probing, full catalogs, no engine or register). -/
def freshSim : Session :=
  { backend := "Simulator", gates := mkDict gatesList,
    observables := mkDict observablesList, eng := none, reg := none, n_eval := 0 }

/-- An oracle whose analytic expectation functional is constantly 0. -/
def oracle0 : Oracle := ⟨fun _ _ => 0, fun _ => 0⟩

/-- An oracle whose analytic expectation functional is constantly 1. -/
def oracle1 : Oracle := ⟨fun _ _ => 1, fun _ => 0⟩

/-- An oracle whose analytic expectation functional is constantly
one half, giving a variance strictly between 0 and 1. -/
def oracleHalf : Oracle := ⟨fun _ _ => 1 / 2, fun _ => 0⟩

/-- The source's `demo` command list: `Rx(p0)` on qubit 0, `Rx(p1)`
on qubit 1, `CNOT` on qubits (0, 1). -/
def demo : List Command :=
  [⟨Rx, [0], [Par.ref 0]⟩, ⟨Rx, [1], [Par.ref 1]⟩, ⟨CNOT, [0, 1], []⟩]

/-- The source's `'demo'` circuit template: no declared outputs. -/
def demoCircuit : Circuit := ⟨demo, "demo", none⟩

/-- The source's first `'demo_ev'` circuit template: `demo` followed
by a `Z` measurement on qubit 0, with `out=[0]`. -/
def demoEv : Circuit := ⟨demo ++ [⟨MeasureZ, [0], []⟩], "demo_ev", some [0]⟩

/-- A circuit that measures `Z` on qubit 0 and then applies the `X`
gate to qubit 0, with qubit 0 declared as output. -/
def cexCircuit : Circuit := ⟨[⟨MeasureZ, [0], []⟩, ⟨X, [0], []⟩], "cex", some [0]⟩

/-- A one-gate circuit declaring the empty output list `out=[]`
(as opposed to `out=None`). -/
def emptyOutCircuit : Circuit := ⟨[⟨X, [0], []⟩], "side effects only", some []⟩

/-- The session state reached after executing `cexCircuit`'s
allocation phase from `freshSim`: fresh Simulator engine, one qubit. -/
def cexAlloc : Session :=
  { freshSim with eng := some ⟨"Simulator", [], none⟩, reg := some [0] }

/-- The final session of `execute_circuit oracle1 freshSim demoEv
[0, 0]`: the three demo gates and a flush on the engine trace, the
measured flag set, a two-qubit register. -/
def demoEvFinal : Session :=
  { freshSim with
    eng := some ⟨"Simulator",
      [EngOp.gate GateClass.Rx [0] [0], EngOp.gate GateClass.Rx [0] [1],
       EngOp.gate GateClass.CNOTClass [] [0, 1], EngOp.flush false], some true⟩,
    reg := some [0, 1] }

/-- A Simulator session holding a live engine and a one-qubit
register. -/
def simLiveSession : Session :=
  { backend := "Simulator", gates := mkDict gatesList,
    observables := mkDict observablesList,
    eng := some ⟨"Simulator", [], none⟩, reg := some [0], n_eval := 0 }

/-- The session returned by a successful
`expection_value oracle0 simLiveSession MeasureZ [0] [] 5` call. -/
def evalOutSession : Session :=
  { simLiveSession with eng := some ⟨"Simulator", [EngOp.flush false], some true⟩ }

/-- An IBM session whose current engine carries
`already_a_measurement_performed = True`. -/
def sIBMmeasured : Session :=
  { backend := "IBMBackend", gates := mkDict [CNOT], observables := mkDict [MeasureZ],
    eng := some ⟨"IBMBackend", [], some true⟩, reg := some [0], n_eval := 0 }

/-- The session built by `PluginAPI.__init__` for the IBM backend
when the probe rejects every gate: only the force-included `CNOT`
survives. -/
def sIBMfalse : Session :=
  { backend := "IBMBackend", gates := mkDict [CNOT], observables := mkDict [MeasureZ],
    eng := none, reg := none, n_eval := 0 }

/-- A Simulator session holding a live engine/register pair, used to
exhibit the behavior of `reset`. -/
def sLive : Session :=
  { backend := "Simulator", gates := mkDict gatesList,
    observables := mkDict observablesList,
    eng := some ⟨"Simulator", [], none⟩, reg := some [0], n_eval := 0 }

/-! Small unfolding equations for the execution pipeline. -/

theorem runPass_nil (h : ObsHandler) (params : List ℚ) (s : Session) (d : Dict) :
    runPass h params s d [] = Except.ok (s, d) := rfl

theorem runPass_cons_ok (h : ObsHandler) (params : List ℚ) (s s' : Session)
    (d : Dict) (cmd : Command) (rest : List Command) (v : EVResult)
    (hc : runCmd h params s cmd = Except.ok (s', v)) :
    runPass h params s d (cmd :: rest)
      = runPass h params s' (dictInsert d cmd.reg v) rest := by
  conv_lhs => unfold runPass
  rw [hc]

theorem runPass_cons_err (h : ObsHandler) (params : List ℚ) (s : Session)
    (d : Dict) (cmd : Command) (rest : List Command) (e : Err)
    (hc : runCmd h params s cmd = Except.error e) :
    runPass h params s d (cmd :: rest) = Except.error e := by
  unfold runPass
  rw [hc]

theorem execPass_eq_of_alloc_ok (h : ObsHandler) (s s₁ : Session) (c : Circuit)
    (params : List ℚ) (ha : allocPhase s c = Except.ok s₁) :
    execPass h s c params = runPass h params (allocRegister s₁ c.n_sys) [] c.seq := by
  unfold execPass
  rw [ha]

theorem execCore_eq_of_execPass_ok (h : ObsHandler) (s sP : Session) (c : Circuit)
    (params : List ℚ) (d : Dict)
    (hp : execPass h s c params = Except.ok (sP, d)) :
    execCore h s c params = collectOut c.out sP d := by
  unfold execCore
  rw [hp]

theorem execCore_eq_of_execPass_err (h : ObsHandler) (s : Session) (c : Circuit)
    (params : List ℚ) (e : Err)
    (hp : execPass h s c params = Except.error e) :
    execCore h s c params = Except.error e := by
  unfold execCore
  rw [hp]

theorem collectOut_none (s : Session) (d : Dict) :
    collectOut none s d = Except.ok (s, none) := rfl

theorem collectOut_some (outs : List Nat) (s : Session) (d : Dict) :
    collectOut (some outs) s d
      = (collectRes d outs).map (fun res => (s, some res)) := rfl

/-- The list comprehension over a register succeeds whenever every
index is in range. -/
theorem resolveIdx_ok (r : List Nat) (idxs : List Nat)
    (h : ∀ i ∈ idxs, i < r.length) :
    ∃ qs, resolveIdx r idxs = Except.ok qs := by
  induction idxs with
  | nil => exact ⟨[], rfl⟩
  | cons i rest ih =>
      obtain ⟨qs, hqs⟩ := ih (fun j hj => h j (List.mem_cons_of_mem i hj))
      have hi : i < r.length := h i (List.mem_cons_self i rest)
      refine ⟨r[i] :: qs, ?_⟩
      unfold resolveIdx
      rw [List.getElem?_eq_getElem hi, hqs]
      rfl

/-- A command whose descriptor is a plain gate (not an observable)
returns Python `None` as its recorded result. -/
theorem runCmd_gate_noneRes (h : ObsHandler) (params : List ℚ) (s : Session)
    (cmd : Command) (s' : Session) (v : EVResult)
    (hobs : cmd.gate.observable = false)
    (hr : runCmd h params s cmd = Except.ok (s', v)) : v = EVResult.noneRes := by
  unfold runCmd at hr
  rw [hobs] at hr
  simp only [Bool.false_eq_true, if_false] at hr
  split at hr <;> first
    | exact Except.noConfusion hr
    | (split at hr <;> first
        | exact Except.noConfusion hr
        | (split at hr <;> first
            | exact Except.noConfusion hr
            | (split at hr <;> first
                | exact Except.noConfusion hr
                | (cases hr; rfl))))

/-- Last-write characterization of the `expectation_values`
dictionary built by the execution pass: every entry found under a key
after a successful pass is either an untouched entry of the initial
dictionary, or the result produced by the last command of the pass
whose target-qubit tuple equals the key. -/
theorem runPass_lookup (h : ObsHandler) (params : List ℚ) (cmds : List Command) :
    ∀ (s₀ : Session) (d₀ : Dict) (sn : Session) (dn : Dict),
      runPass h params s₀ d₀ cmds = Except.ok (sn, dn) →
      ∀ (k : List Nat) (v : EVResult), dictLookup dn k = some v →
        (dictLookup d₀ k = some v ∧ ∀ cmd ∈ cmds, cmd.reg ≠ k) ∨
        (∃ pre cmd post s₁ s₂, cmds = pre ++ cmd :: post ∧ cmd.reg = k ∧
          (∀ c' ∈ post, c'.reg ≠ k) ∧
          runCmd h params s₁ cmd = Except.ok (s₂, v)) := by
  induction cmds with
  | nil =>
      intro s₀ d₀ sn dn hrun k v hl
      rw [runPass_nil] at hrun
      simp only [Except.ok.injEq, Prod.mk.injEq] at hrun
      obtain ⟨-, hd⟩ := hrun
      subst hd
      exact Or.inl ⟨hl, by intro cmd hc; cases hc⟩
  | cons cmd rest ih =>
      intro s₀ d₀ sn dn hrun k v hl
      cases hc : runCmd h params s₀ cmd with
      | error e =>
          rw [runPass_cons_err h params s₀ d₀ cmd rest e hc] at hrun
          exact Except.noConfusion hrun
      | ok p =>
          obtain ⟨s₁, v₁⟩ := p
          rw [runPass_cons_ok h params s₀ s₁ d₀ cmd rest v₁ hc] at hrun
          rcases ih s₁ (dictInsert d₀ cmd.reg v₁) sn dn hrun k v hl with
            ⟨hl', hnone⟩ | ⟨pre, cmd', post, s₁', s₂', heq, hk, hpost, hcmd⟩
          · unfold dictInsert dictLookup at hl'
            by_cases hkk : cmd.reg = k
            · rw [if_pos hkk] at hl'
              injection hl' with hv
              subst hv
              exact Or.inr ⟨[], cmd, rest, s₀, s₁, rfl, hkk, hnone, hc⟩
            · rw [if_neg hkk] at hl'
              refine Or.inl ⟨hl', ?_⟩
              intro c' hc'
              rcases List.mem_cons.mp hc' with rfl | hmem
              · exact hkk
              · exact hnone c' hmem
          · exact Or.inr ⟨cmd :: pre, cmd', post, s₁', s₂',
              by rw [heq]; rfl, hk, hpost, hcmd⟩

/-- The output comprehension returns one entry per declared output
qubit, each equal to the dictionary entry recorded under the
singleton tuple of that qubit index. -/
theorem collectRes_spec (d : Dict) (outs : List Nat) (res : List EVResult)
    (h : collectRes d outs = Except.ok res) :
    res.length = outs.length ∧
    ∀ (j : Nat) (k : Nat), outs[j]? = some k →
      ∃ v, res[j]? = some v ∧ dictLookup d [k] = some v := by
  induction outs generalizing res with
  | nil =>
      unfold collectRes at h
      simp only [Except.ok.injEq] at h
      subst h
      exact ⟨rfl, by intro j k hk; simp at hk⟩
  | cons idx rest ih =>
      unfold collectRes at h
      cases hd : dictLookup d [idx] with
      | none => rw [hd] at h; exact Except.noConfusion h
      | some v₀ =>
          rw [hd] at h
          cases hr : collectRes d rest with
          | error e => rw [hr] at h; exact Except.noConfusion h
          | ok vs =>
              rw [hr] at h
              simp only [Except.map, Except.ok.injEq] at h
              subst h
              obtain ⟨hlen, hrest⟩ := ih vs hr
              refine ⟨by simp [hlen], ?_⟩
              intro j k hk
              cases j with
              | zero =>
                  simp only [List.getElem?_cons_zero, Option.some.injEq] at hk
                  subst hk
                  exact ⟨v₀, by simp, hd⟩
              | succ j =>
                  simp only [List.getElem?_cons_succ] at hk
                  obtain ⟨v, hv, hl⟩ := hrest j k hk
                  exact ⟨v, by simpa using hv, hl⟩

/-- A command dispatching to `Gate.execute` does not depend on the
observable handler. -/
theorem runCmd_handler_independent (h₁ h₂ : ObsHandler) (params : List ℚ)
    (s : Session) (cmd : Command) (hobs : cmd.gate.observable = false) :
    runCmd h₁ params s cmd = runCmd h₂ params s cmd := by
  unfold runCmd
  rw [hobs]
  simp only [Bool.false_eq_true, if_false]

/-- A pass over an observable-free command list does not depend on
the observable handler. -/
theorem runPass_handler_independent (h₁ h₂ : ObsHandler) (params : List ℚ)
    (cmds : List Command) (hobs : ∀ cmd ∈ cmds, cmd.gate.observable = false) :
    ∀ (s : Session) (d : Dict),
      runPass h₁ params s d cmds = runPass h₂ params s d cmds := by
  induction cmds with
  | nil => intro s d; rfl
  | cons cmd rest ih =>
      intro s d
      unfold runPass
      rw [runCmd_handler_independent h₁ h₂ params s cmd
        (hobs cmd (List.mem_cons_self cmd rest))]
      cases runCmd h₂ params s cmd with
      | error e => rfl
      | ok p =>
          obtain ⟨s', v⟩ := p
          exact ih (fun c hc => hobs c (List.mem_cons_of_mem cmd hc)) s'
            (dictInsert d cmd.reg v)

/-- Executing an observable-free circuit does not depend on the
observable handler; in particular executing the estimator's
gates-only `'fake identity'` circuit with `fakeHandler` agrees with
what the source's recursive call to `execute_circuit` computes. -/
theorem execCore_handler_independent (h₁ h₂ : ObsHandler) (s : Session)
    (c : Circuit) (params : List ℚ)
    (hobs : ∀ cmd ∈ c.seq, cmd.gate.observable = false) :
    execCore h₁ s c params = execCore h₂ s c params := by
  unfold execCore execPass
  cases allocPhase s c with
  | error e => rfl
  | ok s₁ =>
      show (match runPass h₁ params (allocRegister s₁ c.n_sys) [] c.seq with
            | Except.ok (s', d) => collectOut c.out s' d
            | Except.error e => Except.error e)
          = match runPass h₂ params (allocRegister s₁ c.n_sys) [] c.seq with
            | Except.ok (s', d) => collectOut c.out s' d
            | Except.error e => Except.error e
      rw [runPass_handler_independent h₁ h₂ params c.seq hobs
        (allocRegister s₁ c.n_sys) []]

/-- Every command of the throwaway `'fake identity'` circuit is a
state-changing `Rx` gate; none is an observable. -/
theorem fakeCircuit_no_observables (n : Nat) :
    ∀ cmd ∈ (fakeCircuit n).seq, cmd.gate.observable = false := by
  intro cmd hc
  simp only [fakeCircuit, List.mem_map] at hc
  obtain ⟨i, -, rfl⟩ := hc
  rfl

/-! The claim theorems. -/

/-- Claim C10: constructing a session with the state-vector simulator
backend kind performs no capability probing (the result does not
depend on the probe), and the effective gate catalog is the full
declared catalog of 16 gates while the effective observable catalog
is all 4 declared observables, each keyed by descriptor name. -/
theorem simulator_full_catalog (probe : Gate → Bool) :
    mkSession "Simulator" probe = Except.ok freshSim
    ∧ freshSim.gates = mkDict gatesList
    ∧ freshSim.observables = mkDict observablesList
    ∧ gatesList.length = 16
    ∧ observablesList.length = 4
    ∧ (mkDict gatesList).map Prod.fst = gatesList.map Gate.name
    ∧ (mkDict observablesList).map Prod.fst = observablesList.map Gate.name :=
  ⟨rfl, rfl, rfl, rfl, rfl, rfl, rfl⟩

/-- Claim C7: requesting an unrecognized backend kind fails with the
unknown-backend error, and no session ever produced by construction
holds a live engine or register (so in particular the failing
construction allocates neither). -/
theorem unknown_backend_rejected (backend : String) (probe : Gate → Bool)
    (h : backend ∉ (["Simulator", "ClassicalSimulator", "IBMBackend"] : List String)) :
    mkSession backend probe = Except.error (Err.unknownBackend backend)
    ∧ ∀ (k : String) (p : Gate → Bool) (s : Session),
        mkSession k p = Except.ok s → s.eng = none ∧ s.reg = none := by
  constructor
  · simp only [List.mem_cons, List.not_mem_nil, or_false, not_or] at h
    obtain ⟨h1, h2, h3⟩ := h
    simp [mkSession, h1, h2, h3]
  · intro k p s hs
    unfold mkSession at hs
    split_ifs at hs <;>
      first
        | exact Except.noConfusion hs
        | · simp only [Except.ok.injEq] at hs
            subst hs
            exact ⟨rfl, rfl⟩

/-- Claim C7 witness: the backend kind `"bogus"` is rejected with
`UnknownBackend`. -/
theorem unknown_backend_rejected_witness :
    ("bogus" ∉ (["Simulator", "ClassicalSimulator", "IBMBackend"] : List String))
    ∧ mkSession "bogus" (fun _ => true) = Except.error (Err.unknownBackend "bogus") :=
  ⟨by decide, (unknown_backend_rejected "bogus" (fun _ => true) (by decide)).1⟩

/-- Claim C8: calling `reset` on a session with no live engine is a
no-op: it raises nothing (the model is total there) and returns the
session with every field unchanged. -/
theorem reset_uninitialized_noop (s : Session) (h : s.eng = none) :
    s.reset = s := by
  unfold Session.reset
  rw [h]

/-- Claim C8 witness: resetting the freshly constructed Simulator
session leaves it unchanged. -/
theorem reset_uninitialized_noop_witness :
    freshSim.eng = none ∧ freshSim.reset = freshSim :=
  ⟨rfl, reset_uninitialized_noop freshSim rfl⟩

/-- Claim C5 (failing input): on a Simulator session holding a live
engine/register pair, `reset` clears the engine handle but leaves the
register handle in place, so a register-without-engine partial state
persists after the public `reset` operation completes — contradicting
the claim that the pair is always destroyed together. -/
theorem reset_keeps_register :
    sLive.eng = some ⟨"Simulator", [], none⟩
    ∧ sLive.reg = some [0]
    ∧ sLive.reset.eng = none
    ∧ sLive.reset.reg = some [0] :=
  ⟨rfl, rfl, rfl, rfl⟩

/-- Claim C3: for every backend kind and every probe outcome, every
entry of the effective gate catalog of a successfully constructed
session is a gate of the full declared catalog keyed by its own name
(negotiation is monotonic with respect to the static catalog), and on
the IBM backend the composite `CNOT` gate is a member of the
effective catalog regardless of the probe. -/
theorem effective_gates_subset (backend : String) (probe : Gate → Bool) (s : Session)
    (h : mkSession backend probe = Except.ok s) :
    (∀ p ∈ s.gates, p.2 ∈ gatesList ∧ p.1 = p.2.name)
    ∧ (backend = "IBMBackend" → ("CNOT", CNOT) ∈ s.gates) := by
  unfold mkSession at h
  split_ifs at h with h1 h2 h3
  · simp only [Except.ok.injEq] at h
    subst h
    refine ⟨?_, ?_⟩
    · intro p hp
      simp only [mkDict, List.mem_map] at hp
      obtain ⟨g, hg, rfl⟩ := hp
      exact ⟨hg, rfl⟩
    · intro hb
      rw [h1] at hb
      exact absurd hb (by decide)
  · simp only [Except.ok.injEq] at h
    subst h
    refine ⟨?_, ?_⟩
    · intro p hp
      simp only [mkDict, List.mem_map] at hp
      obtain ⟨g, hg, rfl⟩ := hp
      exact ⟨List.mem_of_mem_filter hg, rfl⟩
    · intro hb
      rw [h2] at hb
      exact absurd hb (by decide)
  · simp only [Except.ok.injEq] at h
    subst h
    refine ⟨?_, ?_⟩
    · intro p hp
      simp only [mkDict, List.mem_map] at hp
      obtain ⟨g, hg, rfl⟩ := hp
      rcases List.mem_append.mp hg with hg' | hg'
      · exact ⟨List.mem_of_mem_filter hg', rfl⟩
      · rcases List.mem_singleton.mp hg' with rfl
        exact ⟨by decide, rfl⟩
    · intro _
      refine List.mem_map.mpr ⟨CNOT, ?_, rfl⟩
      exact List.mem_append.mpr (Or.inr (List.mem_singleton.mpr rfl))

/-- Claim C3 witness: with a probe rejecting every gate, the IBM
session still holds `CNOT`, and its construction succeeds with the
catalog `[CNOT]`. -/
theorem effective_gates_subset_witness :
    mkSession "IBMBackend" (fun _ => false) = Except.ok sIBMfalse
    ∧ ("CNOT", CNOT) ∈ sIBMfalse.gates :=
  ⟨rfl,
   (effective_gates_subset "IBMBackend" (fun _ => false) sIBMfalse rfl).2 rfl⟩

/-- Claim C4: on an IBM-backed session whose current engine instance
already carries `already_a_measurement_performed = True`, estimating
another observable through `measure` (which delegates to
`expection_value`) fails with the single-measurement error (raised as
`NotImplementedError` in the source; `MultipleMeasurementError` in
the specification's taxonomy). -/
theorem second_measurement_rejected (oracle : Oracle) (s : Session) (e : Engine)
    (obs : Gate) (reg : List Nat) (par : List ℚ) (n : Int) (r : List Nat)
    (heng : s.eng = some e) (hb : e.backendName = "IBMBackend")
    (hf : e.flag = some true) (hr : s.reg = some r)
    (hidx : ∀ i ∈ reg, i < r.length) :
    Session.measure oracle s obs reg par n = Except.error Err.multipleMeasurement := by
  obtain ⟨qs, hqs⟩ := resolveIdx_ok r reg hidx
  have hq2 : resolveQubits s.reg reg = Except.ok qs := by rw [hr]; exact hqs
  have hoe : Observable.execute oracle obs par qs ({ s with n_eval := n } : Session)
      = Except.error Err.multipleMeasurement := by
    unfold Observable.execute
    rw [show ({ s with n_eval := n } : Session).eng = some e from by rw [← heng]]
    simp [hb, hf]
  unfold Session.measure Session.expection_value
  show (match resolveQubits s.reg reg with
        | Except.error e => Except.error e
        | Except.ok qubits =>
            match Observable.execute oracle obs par qubits
                ({ s with n_eval := n } : Session) with
            | Except.ok (s₂, ev) => Except.ok ({ s₂ with n_eval := s.n_eval }, ev)
            | Except.error e => Except.error e)
      = Except.error Err.multipleMeasurement
  rw [hq2]
  show (match Observable.execute oracle obs par qs ({ s with n_eval := n } : Session) with
        | Except.ok (s₂, ev) => Except.ok ({ s₂ with n_eval := s.n_eval }, ev)
        | Except.error e => Except.error e)
      = Except.error Err.multipleMeasurement
  rw [hoe]

/-- Claim C4 witness: estimating `Z` on a concrete IBM session whose
engine was already measured fails with the single-measurement
error. -/
theorem second_measurement_rejected_witness :
    sIBMmeasured.eng = some ⟨"IBMBackend", [], some true⟩
    ∧ sIBMmeasured.reg = some [0]
    ∧ Session.measure oracle0 sIBMmeasured MeasureZ [0] [] 0
        = Except.error Err.multipleMeasurement :=
  ⟨rfl, rfl,
   second_measurement_rejected oracle0 sIBMmeasured ⟨"IBMBackend", [], some true⟩
     MeasureZ [0] [] 0 [0] rfl rfl rfl rfl (by decide)⟩

/-- Claim C2: on the state-vector Simulator backend, estimating any
of the single-qubit Pauli observables X, Y, Z returns the pair
`(e, 1 - e ^ 2)` where `e` is the backend's analytic expectation
value for that observable on the target qubits. -/
theorem simulator_pauli_variance (oracle : Oracle) (obs : Gate) (par : List ℚ)
    (qubits : List Nat) (s : Session) (e : Engine)
    (heng : s.eng = some e) (hb : e.backendName = "Simulator")
    (hobs : obs ∈ ([MeasureX, MeasureY, MeasureZ] : List Gate)) :
    ∃ s', Observable.execute oracle obs par qubits s =
      Except.ok (s', EVResult.pair (oracle.expVal (clsStr obs.cls ++ "0") qubits)
        (1 - (oracle.expVal (clsStr obs.cls ++ "0") qubits) ^ 2)) := by
  refine ⟨{ s with
    eng := some { e with flag := some true, trace := e.trace ++ [EngOp.flush false] } }, ?_⟩
  fin_cases hobs <;>
    simp [Observable.execute, heng, hb, flushEng, MeasureX, MeasureY, MeasureZ, clsStr]

/-- Claim C2 witness: measuring `Z` on a live Simulator session with
an oracle answering one half reports variance `1 - (1 / 2) ^ 2`. -/
theorem simulator_pauli_variance_witness :
    simLiveSession.eng = some ⟨"Simulator", [], none⟩
    ∧ MeasureZ ∈ ([MeasureX, MeasureY, MeasureZ] : List Gate)
    ∧ ∃ s', Observable.execute oracleHalf MeasureZ [] [0] simLiveSession
        = Except.ok (s', EVResult.pair (oracleHalf.expVal (clsStr MeasureZ.cls ++ "0") [0])
            (1 - (oracleHalf.expVal (clsStr MeasureZ.cls ++ "0") [0]) ^ 2)) :=
  ⟨rfl, by decide,
   simulator_pauli_variance oracleHalf MeasureZ [] [0] simLiveSession
     ⟨"Simulator", [], none⟩ rfl rfl (by decide)⟩

/-- Claim C9: whenever `expection_value` (to which `measure`
delegates definitionally) returns normally, the session's `n_eval`
field has the same value after the call as before it: the
caller-supplied value is installed only for the duration of the
observable's execution. -/
theorem expection_value_preserves_n_eval (oracle : Oracle) (s : Session)
    (observable : Gate) (reg : List Nat) (par : List ℚ) (n : Int)
    (s' : Session) (v : EVResult)
    (h : Session.expection_value oracle s observable reg par n = Except.ok (s', v)) :
    s'.n_eval = s.n_eval := by
  unfold Session.expection_value at h
  replace h : (match resolveQubits s.reg reg with
      | Except.error e => Except.error e
      | Except.ok qubits =>
          match Observable.execute oracle observable par qubits
              ({ s with n_eval := n } : Session) with
          | Except.ok (s₂, ev) => Except.ok ({ s₂ with n_eval := s.n_eval }, ev)
          | Except.error e => Except.error e)
      = Except.ok (s', v) := h
  cases hq : resolveQubits s.reg reg with
  | error e =>
      rw [hq] at h
      exact Except.noConfusion h
  | ok qubits =>
      rw [hq] at h
      replace h : (match Observable.execute oracle observable par qubits
              ({ s with n_eval := n } : Session) with
          | Except.ok (s₂, ev) => Except.ok ({ s₂ with n_eval := s.n_eval }, ev)
          | Except.error e => Except.error e)
          = Except.ok (s', v) := h
      cases ho : Observable.execute oracle observable par qubits
          ({ s with n_eval := n } : Session) with
      | error e => rw [ho] at h; exact Except.noConfusion h
      | ok p =>
          obtain ⟨s₂, ev⟩ := p
          rw [ho] at h
          replace h : Except.ok (({ s₂ with n_eval := s.n_eval } : Session), ev)
              = Except.ok (s', v) := h
          simp only [Except.ok.injEq, Prod.mk.injEq] at h
          obtain ⟨hs, -⟩ := h
          rw [← hs]

/-- Claim C9 witness: a successful concrete `expection_value` call
with caller-supplied `n_eval = 5` returns a session whose `n_eval`
equals the original value. -/
theorem expection_value_preserves_n_eval_witness :
    Session.expection_value oracle0 simLiveSession MeasureZ [0] [] 5
      = Except.ok (evalOutSession, EVResult.pair 0 (1 - (0 : ℚ) ^ 2))
    ∧ evalOutSession.n_eval = simLiveSession.n_eval :=
  ⟨rfl,
   expection_value_preserves_n_eval oracle0 simLiveSession MeasureZ [0] [] 5
     evalOutSession (EVResult.pair 0 (1 - (0 : ℚ) ^ 2)) rfl⟩

/-- Claim C6: a circuit declaring no outputs (`out=None`, as in the
source's own `'demo'` template) executes the full command pass for
its side effects and returns no result value; a circuit declaring the
empty output list `out=[]` likewise executes the full pass and
returns an empty result sequence carrying no values. -/
theorem empty_out_no_result (oracle : Oracle) (s : Session) (c : Circuit)
    (params : List ℚ) :
    (c.out = none →
      execute_circuit oracle s c params
        = Except.map (fun sd => (sd.1, (none : Option (List EVResult))))
            (execPass (Observable.execute oracle) s c params))
    ∧ (c.out = some [] →
      execute_circuit oracle s c params
        = Except.map (fun sd => (sd.1, some ([] : List EVResult)))
            (execPass (Observable.execute oracle) s c params)) := by
  constructor
  · intro hout
    unfold execute_circuit execCore
    cases hp : execPass (Observable.execute oracle) s c params with
    | error e => rfl
    | ok sd =>
        obtain ⟨sP, d⟩ := sd
        show collectOut c.out sP d
          = Except.map (fun sd => (sd.1, (none : Option (List EVResult))))
              (Except.ok (sP, d))
        rw [hout]
        rfl
  · intro hout
    unfold execute_circuit execCore
    cases hp : execPass (Observable.execute oracle) s c params with
    | error e => rfl
    | ok sd =>
        obtain ⟨sP, d⟩ := sd
        show collectOut c.out sP d
          = Except.map (fun sd => (sd.1, some ([] : List EVResult)))
              (Except.ok (sP, d))
        rw [hout]
        rfl

/-- Claim C6 witness: executing the `'demo'` template (no declared
outputs) returns no value while running the full pass, and executing
a circuit with `out=[]` returns the empty sequence while running the
full pass. -/
theorem empty_out_no_result_witness :
    demoCircuit.out = none
    ∧ execute_circuit oracle0 freshSim demoCircuit [0, 0]
        = Except.map (fun sd => (sd.1, (none : Option (List EVResult))))
            (execPass (Observable.execute oracle0) freshSim demoCircuit [0, 0])
    ∧ emptyOutCircuit.out = some []
    ∧ execute_circuit oracle0 freshSim emptyOutCircuit []
        = Except.map (fun sd => (sd.1, some ([] : List EVResult)))
            (execPass (Observable.execute oracle0) freshSim emptyOutCircuit []) :=
  ⟨rfl, (empty_out_no_result oracle0 freshSim demoCircuit [0, 0]).1 rfl, rfl,
   (empty_out_no_result oracle0 freshSim emptyOutCircuit []).2 rfl⟩

/-- Claim C1 (counterexample): the execution pass records a result
for every command, state-changing gates included: their Python `None`
return value is stored under their target-qubit tuple and overwrites
an earlier observable record with the same key.  Executing
`cexCircuit` (measure Z on qubit 0, then apply the X gate to qubit 0,
output qubit 0) with an oracle answering 1 returns `None` for the
declared output — not the `(1, 1 - 1 ^ 2)` pair that the observable
command recorded — refuting the claim that the returned sequence
contains exactly the observables' recorded results. -/
theorem gate_overwrites_recorded_result :
    Except.map Prod.snd (execute_circuit oracle1 freshSim cexCircuit [])
      = Except.ok (some [EVResult.noneRes])
    ∧ Except.map Prod.snd
        (runCmd (Observable.execute oracle1) [] cexAlloc ⟨MeasureZ, [0], []⟩)
      = Except.ok (EVResult.pair 1 (1 - (1 : ℚ) ^ 2))
    ∧ EVResult.noneRes ≠ EVResult.pair 1 (1 - (1 : ℚ) ^ 2) :=
  ⟨rfl, rfl, fun h => EVResult.noConfusion h⟩

/-- Claim C1 (amended): commands are processed in declared order and
every command's return value — Python `None` for a state-changing
gate, the estimator's (value, variance) result for an observable — is
recorded keyed by the exact tuple of its target-qubit indices, later
records overwriting earlier ones with the same key; after the full
pass the returned sequence contains, in the order given by the
declared outputs, the result of the last command whose target tuple
is the singleton of that output qubit (the observable's recorded
result precisely when no later command shares that tuple). -/
theorem outputs_are_last_recorded (oracle : Oracle) (s : Session) (c : Circuit)
    (params : List ℚ) (outs : List Nat) (s' : Session) (res : List EVResult)
    (hout : c.out = some outs)
    (hrun : execute_circuit oracle s c params = Except.ok (s', some res)) :
    res.length = outs.length ∧
    ∀ (j k : Nat), outs[j]? = some k →
      ∃ pre cmd post s₁ s₂ v,
        c.seq = pre ++ cmd :: post ∧ cmd.reg = [k] ∧
        (∀ c' ∈ post, c'.reg ≠ [k]) ∧
        runCmd (Observable.execute oracle) params s₁ cmd = Except.ok (s₂, v) ∧
        res[j]? = some v ∧
        (cmd.gate.observable = false → v = EVResult.noneRes) := by
  unfold execute_circuit at hrun
  cases hp : execPass (Observable.execute oracle) s c params with
  | error e =>
      rw [execCore_eq_of_execPass_err _ _ _ _ e hp] at hrun
      exact Except.noConfusion hrun
  | ok sd =>
      obtain ⟨sP, d⟩ := sd
      rw [execCore_eq_of_execPass_ok _ _ _ _ _ _ hp, hout, collectOut_some] at hrun
      cases hc : collectRes d outs with
      | error e => rw [hc] at hrun; exact Except.noConfusion hrun
      | ok res' =>
          rw [hc] at hrun
          replace hrun : Except.ok (sP, some res') = Except.ok (s', some res) := hrun
          simp only [Except.ok.injEq, Prod.mk.injEq, Option.some.injEq] at hrun
          obtain ⟨-, hres⟩ := hrun
          subst hres
          obtain ⟨hlen, hspec⟩ := collectRes_spec d outs res' hc
          refine ⟨hlen, ?_⟩
          intro j k hk
          obtain ⟨v, hv, hdl⟩ := hspec j k hk
          unfold execPass at hp
          cases ha : allocPhase s c with
          | error e => rw [ha] at hp; exact Except.noConfusion hp
          | ok sA =>
              rw [ha] at hp
              replace hp : runPass (Observable.execute oracle) params
                  (allocRegister sA c.n_sys) [] c.seq = Except.ok (sP, d) := hp
              rcases runPass_lookup (Observable.execute oracle) params c.seq
                  _ _ _ _ hp [k] v hdl with
                ⟨habs, -⟩ | ⟨pre, cmd, post, s₁, s₂, heq, hkk, hpost, hcmd⟩
              · exact absurd habs (by simp [dictLookup])
              · exact ⟨pre, cmd, post, s₁, s₂, v, heq, hkk, hpost, hcmd, hv,
                  fun hobs => runCmd_gate_noneRes _ _ _ _ _ _ hobs hcmd⟩

/-- Claim C1 (amended) witness: executing the source's `'demo_ev'`
template from a fresh Simulator session with an oracle answering 1
returns the pair recorded by its final Z measurement on qubit 0, and
that measurement is the last command targeting qubit 0. -/
theorem outputs_are_last_recorded_witness :
    demoEv.out = some [0]
    ∧ execute_circuit oracle1 freshSim demoEv [0, 0]
        = Except.ok (demoEvFinal, some [EVResult.pair 1 (1 - (1 : ℚ) ^ 2)])
    ∧ ([EVResult.pair 1 (1 - (1 : ℚ) ^ 2)] : List EVResult).length
        = ([0] : List Nat).length
    ∧ ∃ pre cmd post s₁ s₂ v,
        demoEv.seq = pre ++ cmd :: post ∧ cmd.reg = [0] ∧
        (∀ c' ∈ post, c'.reg ≠ [0]) ∧
        runCmd (Observable.execute oracle1) [0, 0] s₁ cmd = Except.ok (s₂, v) ∧
        ([EVResult.pair 1 (1 - (1 : ℚ) ^ 2)] : List EVResult)[0]? = some v ∧
        (cmd.gate.observable = false → v = EVResult.noneRes) :=
  ⟨rfl, rfl,
   (outputs_are_last_recorded oracle1 freshSim demoEv [0, 0] [0] demoEvFinal
      [EVResult.pair 1 (1 - (1 : ℚ) ^ 2)] rfl rfl).1,
   (outputs_are_last_recorded oracle1 freshSim demoEv [0, 0] [0] demoEvFinal
      [EVResult.pair 1 (1 - (1 : ℚ) ^ 2)] rfl rfl).2 0 0 rfl⟩

end ProjectQ
